import Mathlib

set_option linter.unusedVariables false

/-!
Shallow embedding of `Src/base/BackupManager.cpp` (webappmanager).

The component registers a backup/restore participant on the Luna service
bus and implements two handlers, `preBackupCallback` and
`postRestoreCallback`, plus four logging-only lifecycle observers and an
`init` routine. External collaborators (the bus library, the JSON
allocator, the filesystem test) are modelled as explicit environment
inputs; JSON payloads and replies are modelled by a small inductive type.
-/

/-- A JSON value, as manipulated through cjson in the source. -/
inductive Json where
  | str (s : String)
  | bool (b : Bool)
  | num (n : Int)
  | arr (xs : List Json)
  | obj (fields : List (String × Json))
  | null

/-- Field lookup on a JSON object (first match), `none` on non-objects. -/
def Json.getField : Json → String → Option Json
  | .obj fields, k => fields.lookup k
  | _, _ => none

mutual
/-- Serialize a JSON value to a string (deterministic rendering). -/
def Json.render : Json → String
  | .str s => "\"" ++ s ++ "\""
  | .bool b => if b then "true" else "false"
  | .num n => toString n
  | .arr xs => "[ " ++ Json.renderList xs ++ " ]"
  | .obj fields => "\x7b " ++ Json.renderFields fields ++ " \x7d"
  | .null => "null"

/-- Serialize a list of JSON values, comma separated. -/
def Json.renderList : List Json → String
  | [] => ""
  | [x] => Json.render x
  | x :: xs => Json.render x ++ ", " ++ Json.renderList xs

/-- Serialize the fields of a JSON object, comma separated. -/
def Json.renderFields : List (String × Json) → String
  | [] => ""
  | [(k, v)] => "\"" ++ k ++ "\": " ++ Json.render v
  | (k, v) :: fs => "\"" ++ k ++ "\": " ++ Json.render v ++ ", " ++ Json.renderFields fs
end

/-- The phony app id used to identify the cookie db entry
(`strCookieAppId` in the source). -/
def strCookieAppId : String := "com.palm.luna-sysmgr.cookies"

/-- The fixed cookie-export temp file path (`strCookieTempFile`). -/
def strCookieTempFile : String := "/tmp/com.palm.luna-sysmgr.cookies-html5-backup.sql"

/-- The fixed description string placed in every preBackup manifest. -/
def backupDescription : String :=
  "Backup of LunaSysMgr files for launcher, quicklaunch, dockmode and sysmgr cookies"

/-- The member state of a `BackupManager` instance.  Pointers
(`m_mainLoop`, the two service handles) are modelled as `Option Nat`,
`none` standing for NULL.  The constructor nulls the three pointers and
leaves the name empty; the two `bool` flags are only assigned in `init`
(they are indeterminate before, modelled as an arbitrary initial value). -/
structure BackupManagerState where
  m_mainLoop : Option Nat
  m_clientService : Option Nat
  m_serverService : Option Nat
  m_strBackupServiceName : String
  m_doBackupFiles : Bool
  m_doBackupCookies : Bool
deriving DecidableEq

/-- The state produced by the `BackupManager` constructor: all three
pointers NULL, empty service name, flags not yet meaningfully set
(taken as `false`). -/
def ctorState : BackupManagerState :=
  { m_mainLoop := none
    m_clientService := none
    m_serverService := none
    m_strBackupServiceName := ""
    m_doBackupFiles := false
    m_doBackupCookies := false }

/-- Environment for one `preBackupCallback` invocation: whether
`json_object_new_object` succeeds, the result of the
`g_file_test(strCookieTempFile, EXISTS|IS_REGULAR)` filesystem check,
and whether `LSMessageReply` succeeds. -/
structure PreBackupEnv where
  allocOk : Bool
  cookieFileIsRegular : Bool
  replySendOk : Bool
deriving DecidableEq

/-- Observable outcome of one bus-handler invocation: the reply passed to
`LSMessageReply` (`none` when no reply call is made at all), the boolean
returned to the transport layer, and the warning/message log lines. -/
structure HandlerResult where
  reply : Option Json
  retVal : Bool
  logs : List String

/-- `BackupManager::preBackupCallback`.  The request payload is accepted
but never parsed (the source reads none of its fields).  If allocation of
the response object fails, a warning is logged and `true` is returned
without replying.  Otherwise the response carries the fixed description,
version "1.0", and a files array holding exactly the cookie temp file
when `m_doBackupCookies` is set and the file exists as a regular file,
and nothing otherwise.  The reply is then sent; a send failure is only
logged. -/
def preBackupCallback (st : BackupManagerState) (env : PreBackupEnv)
    (payload : Json) : HandlerResult :=
  if !env.allocOk then
    { reply := none
      retVal := true
      logs := ["Unable to allocate json object"] }
  else
    let files : List Json :=
      if st.m_doBackupCookies && env.cookieFileIsRegular then
        [Json.str strCookieTempFile]
      else []
    let cookieLog : List String :=
      if st.m_doBackupCookies && env.cookieFileIsRegular then
        ["added cookies file " ++ strCookieTempFile ++ " to the backup list"]
      else []
    let response : Json := Json.obj
      [("description", Json.str backupDescription),
       ("version", Json.str "1.0"),
       ("files", Json.arr files)]
    let sendLogs : List String :=
      ("Sending response to preBackupCallback: " ++ Json.render response) ::
        (if env.replySendOk then []
         else ["Cannot send reply to preBackupCallback error"])
    { reply := some response
      retVal := true
      logs := cookieLog ++ sendLogs }

/-- The success acknowledgment built by `postRestoreCallback`:
`{"returnValue": true}`. -/
def ackResponse : Json := Json.obj [("returnValue", Json.bool true)]

/-- Modelled from the spec: the standardized validation-error response the
schema-validation macro (`VALIDATE_SCHEMA_AND_RETURN`, defined in
`JSONUtils.h`, which is not part of the provided sources) sends to the
caller when the payload does not match the schema.  The spec only fixes
that it is a structured error response distinct from the success
acknowledgment. -/
def schemaErrorResponse : Json :=
  Json.obj [("returnValue", Json.bool false),
            ("errorText", Json.str "Invalid parameters.")]

/-- Modelled from the spec: the schema check performed by
`VALIDATE_SCHEMA_AND_RETURN` for `SCHEMA_1(REQUIRED(files, array))`
(the macro body lives in `JSONUtils.h`, outside the provided sources):
the payload must be present and contain a "files" field whose value is
an array. -/
def filesSchemaOk : Option Json → Bool
  | none => false
  | some p =>
    match p.getField "files" with
    | some (Json.arr _) => true
    | _ => false

/-- `BackupManager::postRestoreCallback`, lines 299-329 of the source,
with the outcome of the schema-validation macro passed in explicitly as
`schemaOk` (the macro itself is outside the provided sources).  If
validation fails, the macro replies with the standardized error response
and the handler returns `true`.  Otherwise, if `LSMessageGetPayload`
returns NULL (`payload = none`), the handler returns `true` without any
reply.  Otherwise it unconditionally replies `{"returnValue": true}`;
a reply-send failure is only logged. -/
def postRestoreCallback (schemaOk : Bool) (payload : Option Json)
    (replySendOk : Bool) : HandlerResult :=
  if !schemaOk then
    { reply := some schemaErrorResponse
      retVal := true
      logs := [] }
  else
    match payload with
    | none => { reply := none, retVal := true, logs := [] }
    | some p =>
      { reply := some ackResponse
        retVal := true
        logs :=
          ("[BACKUPTRACE] postRestoreCallback: received " ++ Json.render p) ::
          ("Sending response to postRestoreCallback: " ++ Json.render ackResponse) ::
          (if replySendOk then []
           else ["Cannot send reply to postRestoreCallback error"]) }

/-- The full confirm-restore handler: the schema-validation macro runs on
the message payload, then the source's explicit code path follows. -/
def handleConfirmRestore (payload : Option Json) (replySendOk : Bool) :
    HandlerResult :=
  postRestoreCallback (filesSchemaOk payload) payload replySendOk

/-- Environment for one `BackupManager::init` call: the success of
`LSRegisterPalmService` (producing handle `serverHandle`),
`LSPalmServiceRegisterCategory`, `LSGmainAttachPalmService`, and the
handle returned by `LSPalmServiceGetPrivateConnection` (`none` = NULL). -/
structure InitEnv where
  registerOk : Bool
  serverHandle : Nat
  categoryOk : Bool
  attachOk : Bool
  privateConn : Option Nat
deriving DecidableEq

/-- Outcome of one `BackupManager::init` call: either the `luna_assert`
at entry fires (aborting the process), or the call returns a boolean,
leaving the instance in a new state; `busRegistered` records whether a
palm-service registration on the bus is still active when the call
returns (no path of `init` ever unregisters one it created). -/
inductive InitOutcome where
  | assertFail
  | returned (ret : Bool) (st : BackupManagerState) (busRegistered : Bool)
deriving DecidableEq

/-- `BackupManager::init`, lines 71-114 of the source.  Asserts
`m_mainLoop == NULL`, then assigns `m_mainLoop`, the service name and the
two backup flags, then performs the four bus steps in order, returning
`false` at the first failure (with a warning logged, not modelled) and
`true` only when all succeed.  No failure path undoes any assignment or
unregisters the service registered in the first step. -/
def init (st : BackupManagerState) (mainLoop : Nat) (env : InitEnv) :
    InitOutcome :=
  if st.m_mainLoop ≠ none then
    InitOutcome.assertFail
  else
    let st1 := { st with
      m_mainLoop := some mainLoop
      m_strBackupServiceName := "com.palm.appDataBackup"
      m_doBackupFiles := true
      m_doBackupCookies := true }
    if !env.registerOk then
      InitOutcome.returned false st1 false
    else
      let st2 := { st1 with m_serverService := some env.serverHandle }
      if !env.categoryOk then
        InitOutcome.returned false st2 true
      else if !env.attachOk then
        InitOutcome.returned false st2 true
      else
        match env.privateConn with
        | none => InitOutcome.returned false st2 true
        | some h =>
          InitOutcome.returned true { st2 with m_clientService := some h } true

/-- The status record handed to the lifecycle observers
(`Palm::DbBackupStatus`): a source URL and an error code. -/
structure DbBackupStatus where
  url : String
  err : Int
deriving DecidableEq

/-- `BackupManager::dbDumpStarted`: logs one line, touches nothing else.
The instance state is returned so frame properties can be stated. -/
def dbDumpStarted (st : BackupManagerState) (status : DbBackupStatus) :
    BackupManagerState × List String :=
  (st, ["Started database dump " ++ status.url ++ " err: " ++ toString status.err])

/-- `BackupManager::dbDumpStopped`: logs one line, touches nothing else. -/
def dbDumpStopped (st : BackupManagerState) (status : DbBackupStatus) :
    BackupManagerState × List String :=
  (st, ["Stopped database dump " ++ status.url ++ " err: " ++ toString status.err])

/-- `BackupManager::dbRestoreStarted`: logs one line, touches nothing else. -/
def dbRestoreStarted (st : BackupManagerState) (status : DbBackupStatus) :
    BackupManagerState × List String :=
  (st, ["Started restore of " ++ status.url ++ " err: " ++ toString status.err])

/-- `BackupManager::dbRestoreStopped`: logs one line, touches nothing else. -/
def dbRestoreStopped (st : BackupManagerState) (status : DbBackupStatus) :
    BackupManagerState × List String :=
  (st, ["Stopped restore of " ++ status.url ++ " err: " ++ toString status.err])

/-! ## Helper lemmas -/

/-- The standardized validation-error response differs from the success
acknowledgment. -/
theorem schemaErrorResponse_ne_ackResponse : schemaErrorResponse ≠ ackResponse := by
  simp [schemaErrorResponse, ackResponse]

/-- When allocation succeeds, the preBackup reply is exactly the manifest
object built by the source. -/
theorem preBackup_reply_eq (st : BackupManagerState) (env : PreBackupEnv)
    (payload : Json) (h : env.allocOk = true) :
    (preBackupCallback st env payload).reply = some (Json.obj
      [("description", Json.str backupDescription),
       ("version", Json.str "1.0"),
       ("files", Json.arr
         (if st.m_doBackupCookies && env.cookieFileIsRegular then
            [Json.str strCookieTempFile]
          else []))]) := by
  simp [preBackupCallback, h]

/-- `init` aborts on the entry assertion iff the instance was already
initialized (`m_mainLoop` non-NULL). -/
theorem init_assertFail_iff (st : BackupManagerState) (loop : Nat) (env : InitEnv) :
    init st loop env = InitOutcome.assertFail ↔ st.m_mainLoop ≠ none := by
  constructor
  · intro h
    intro hnone
    unfold init at h
    rw [if_neg (by simp [hnone])] at h
    split at h
    · exact InitOutcome.noConfusion h
    · split at h
      · exact InitOutcome.noConfusion h
      · split at h
        · exact InitOutcome.noConfusion h
        · split at h
          · exact InitOutcome.noConfusion h
          · exact InitOutcome.noConfusion h
  · intro h
    unfold init
    rw [if_pos h]

/-- Any `init` call that returns (success or failure) has stored the
provided loop pointer into `m_mainLoop`. -/
theorem init_mainLoop_of_returned (st : BackupManagerState) (loop : Nat)
    (env : InitEnv) (ret : Bool) (st1 : BackupManagerState) (b : Bool)
    (h : init st loop env = InitOutcome.returned ret st1 b) :
    st1.m_mainLoop = some loop := by
  unfold init at h
  split at h
  · exact InitOutcome.noConfusion h
  · split at h
    · cases h; rfl
    · split at h
      · cases h; rfl
      · split at h
        · cases h; rfl
        · split at h
          · cases h; rfl
          · cases h; rfl

/-- Any `init` call that returns leaves a bus registration active exactly
when the service-name registration step succeeded. -/
theorem init_busRegistered_of_returned (st : BackupManagerState) (loop : Nat)
    (env : InitEnv) (ret : Bool) (st1 : BackupManagerState) (b : Bool)
    (h : init st loop env = InitOutcome.returned ret st1 b) :
    b = env.registerOk := by
  rcases env with ⟨rOk, sh, cOk, aOk, pc⟩
  cases rOk <;> cases cOk <;> cases aOk <;> rcases pc with _ | ph <;>
    · unfold init at h
      split at h
      · exact InitOutcome.noConfusion h
      · simp only [Bool.not_true, Bool.not_false, if_true, if_false] at h
        cases h
        rfl

/-- `postRestoreCallback` returns `true` to the transport on every path. -/
theorem postRestore_retVal_true (schemaOk : Bool) (payload : Option Json)
    (r : Bool) : (postRestoreCallback schemaOk payload r).retVal = true := by
  cases schemaOk <;> cases payload <;> rfl

/-- `preBackupCallback` returns `true` to the transport on every path. -/
theorem preBackup_retVal_true (st : BackupManagerState) (env : PreBackupEnv)
    (payload : Json) : (preBackupCallback st env payload).retVal = true := by
  cases h : env.allocOk <;> simp [preBackupCallback, h]

/-! ## Claim theorems -/

/-- C1: whenever the response object allocates, the preBackup reply is a
manifest carrying the fixed description string and version "1.0", whose
files list is exactly `[strCookieTempFile]` when the cookies-inclusion
flag is set and the cookie file exists as a regular file, and is present
and empty otherwise; no other file is ever added. -/
theorem preBackupCallback_manifest (st : BackupManagerState) (env : PreBackupEnv)
    (payload : Json) (h : env.allocOk = true) :
    ∃ resp : Json,
      (preBackupCallback st env payload).reply = some resp ∧
      resp.getField "description" = some (Json.str backupDescription) ∧
      resp.getField "version" = some (Json.str "1.0") ∧
      (st.m_doBackupCookies = true ∧ env.cookieFileIsRegular = true →
        resp.getField "files" = some (Json.arr [Json.str strCookieTempFile])) ∧
      (¬(st.m_doBackupCookies = true ∧ env.cookieFileIsRegular = true) →
        resp.getField "files" = some (Json.arr [])) := by
  refine ⟨_, preBackup_reply_eq st env payload h, rfl, rfl, ?_, ?_⟩
  · rintro ⟨hc, hf⟩
    show some (Json.arr
      (if st.m_doBackupCookies && env.cookieFileIsRegular then
        [Json.str strCookieTempFile] else [])) = _
    rw [hc, hf]
    rfl
  · intro hn
    have hc : (st.m_doBackupCookies && env.cookieFileIsRegular) = false := by
      cases h1 : st.m_doBackupCookies <;> cases h2 : env.cookieFileIsRegular <;>
        simp_all
    show some (Json.arr
      (if st.m_doBackupCookies && env.cookieFileIsRegular then
        [Json.str strCookieTempFile] else [])) = _
    rw [hc]
    rfl

/-- C1 witness: the manifest theorem instantiated at a concrete call with
the cookie flag unset. -/
theorem preBackupCallback_manifest_witness :
    ∃ resp : Json,
      (preBackupCallback ctorState ⟨true, true, true⟩ Json.null).reply = some resp ∧
      resp.getField "description" = some (Json.str backupDescription) ∧
      resp.getField "version" = some (Json.str "1.0") ∧
      resp.getField "files" = some (Json.arr []) := by
  obtain ⟨resp, h1, h2, h3, _, h5⟩ :=
    preBackupCallback_manifest ctorState ⟨true, true, true⟩ Json.null rfl
  exact ⟨resp, h1, h2, h3, h5 (by simp [ctorState])⟩

/-- C2: a postRestore payload whose "files" field is absent or not an
array fails schema validation; the handler replies with the standardized
validation-error response, never with the success acknowledgment
`\x7b returnValue: true \x7d`, and still returns `true` to the transport. -/
theorem postRestoreCallback_schema_error (payload : Option Json) (r : Bool)
    (h : filesSchemaOk payload = false) :
    (handleConfirmRestore payload r).reply = some schemaErrorResponse ∧
    (handleConfirmRestore payload r).reply ≠ some ackResponse ∧
    (handleConfirmRestore payload r).retVal = true := by
  have hr : handleConfirmRestore payload r =
      { reply := some schemaErrorResponse, retVal := true, logs := [] } := by
    simp [handleConfirmRestore, postRestoreCallback, h]
  rw [hr]
  refine ⟨rfl, ?_, rfl⟩
  intro hh
  exact schemaErrorResponse_ne_ackResponse (Option.some.inj hh)

/-- C2 witness: the schema-error theorem at the concrete payload
`\x7b "files": "not-an-array" \x7d`. -/
theorem postRestoreCallback_schema_error_witness :
    (handleConfirmRestore (some (Json.obj [("files", Json.str "not-an-array")])) true).reply
      = some schemaErrorResponse ∧
    (handleConfirmRestore (some (Json.obj [("files", Json.str "not-an-array")])) true).reply
      ≠ some ackResponse := by
  obtain ⟨h1, h2, _⟩ :=
    postRestoreCallback_schema_error
      (some (Json.obj [("files", Json.str "not-an-array")])) true rfl
  exact ⟨h1, h2⟩

/-- C3: a postRestore payload carrying a "files" field that is an array
(any contents, including the empty array) passes validation and the
handler unconditionally replies with the success acknowledgment
`\x7b returnValue: true \x7d`. -/
theorem postRestoreCallback_ack (p : Json) (xs : List Json) (r : Bool)
    (h : p.getField "files" = some (Json.arr xs)) :
    (handleConfirmRestore (some p) r).reply = some ackResponse ∧
    (handleConfirmRestore (some p) r).retVal = true := by
  have hs : filesSchemaOk (some p) = true := by
    simp [filesSchemaOk, h]
  simp [handleConfirmRestore, hs, postRestoreCallback]

/-- C3 witness: the acknowledgment theorem at the concrete payload
`\x7b "files": [] \x7d`. -/
theorem postRestoreCallback_ack_witness :
    (handleConfirmRestore (some (Json.obj [("files", Json.arr [])])) true).reply
      = some ackResponse :=
  (postRestoreCallback_ack (Json.obj [("files", Json.arr [])]) [] true rfl).1

/-- The state `init` leaves behind when the category-registration step is
the first to fail: the loop pointer, service name, flags and the server
service handle are all already assigned. -/
def afterCategoryFailState : BackupManagerState :=
  { m_mainLoop := some 7
    m_clientService := none
    m_serverService := some 3
    m_strBackupServiceName := "com.palm.appDataBackup"
    m_doBackupFiles := true
    m_doBackupCookies := true }

/-- C4 counterexample: on a fresh instance, when service-name
registration succeeds but category registration fails, `init` returns
`false` yet the bus registration is still active (`busRegistered = true`)
and the instance state is not the pre-call state: `m_mainLoop`, the
service name, the flags and `m_serverService` have all been assigned, so
the failed call is observable and a retry would hit the entry assertion. -/
theorem init_no_rollback_cex :
    init ctorState 7 ⟨true, 3, false, true, none⟩ =
      InitOutcome.returned false afterCategoryFailState true ∧
    afterCategoryFailState ≠ ctorState := by
  constructor
  · rfl
  · decide

/-- C4 amended: whenever `init` fails at any step it returns `false`,
but it does not roll back: the failed call leaves `m_mainLoop` set to
the new loop pointer, so every subsequent `init` call on that state hits
the entry assertion instead of retrying; and a bus registration remains
active exactly when the service-name registration step had succeeded
(no failure path unregisters it). -/
theorem init_failure_no_rollback (st : BackupManagerState) (loop : Nat)
    (env : InitEnv) (st1 : BackupManagerState) (b : Bool)
    (h : init st loop env = InitOutcome.returned false st1 b) :
    st1.m_mainLoop = some loop ∧
    (∀ loop2 env2, init st1 loop2 env2 = InitOutcome.assertFail) ∧
    b = env.registerOk := by
  have hm : st1.m_mainLoop = some loop :=
    init_mainLoop_of_returned st loop env false st1 b h
  refine ⟨hm, ?_, init_busRegistered_of_returned st loop env false st1 b h⟩
  intro loop2 env2
  exact (init_assertFail_iff st1 loop2 env2).mpr (by simp [hm])

/-- C4 amended witness: the amended theorem at the concrete
category-registration failure. -/
theorem init_failure_no_rollback_witness :
    afterCategoryFailState.m_mainLoop = some 7 ∧
    init afterCategoryFailState 8 ⟨true, 4, true, true, some 6⟩
      = InitOutcome.assertFail := by
  obtain ⟨h1, h2, _⟩ :=
    init_failure_no_rollback ctorState 7 ⟨true, 3, false, true, none⟩
      afterCategoryFailState true rfl
  exact ⟨h1, h2 8 ⟨true, 4, true, true, some 6⟩⟩

/-- The state `init` leaves behind on full success from a fresh instance
with loop pointer 7, server handle 3 and private handle 5. -/
def afterSuccessState : BackupManagerState :=
  { m_mainLoop := some 7
    m_clientService := some 5
    m_serverService := some 3
    m_strBackupServiceName := "com.palm.appDataBackup"
    m_doBackupFiles := true
    m_doBackupCookies := true }

/-- C5: after a successful `init`, every further `init` call on the
resulting state aborts on the `luna_assert(m_mainLoop == NULL)` entry
assertion rather than re-registering a second bus identity; and in
general the assertion branch is avoided exactly when `m_mainLoop` is
still NULL, i.e. when `init` has never run on the instance. -/
theorem init_twice_asserts (st : BackupManagerState) (loop : Nat)
    (env : InitEnv) (st1 : BackupManagerState) (b : Bool)
    (h : init st loop env = InitOutcome.returned true st1 b) :
    (∀ loop2 env2, init st1 loop2 env2 = InitOutcome.assertFail) ∧
    (∀ st0 loop3 env3,
      init st0 loop3 env3 ≠ InitOutcome.assertFail ↔ st0.m_mainLoop = none) := by
  constructor
  · intro loop2 env2
    have hm : st1.m_mainLoop = some loop :=
      init_mainLoop_of_returned st loop env true st1 b h
    exact (init_assertFail_iff st1 loop2 env2).mpr (by simp [hm])
  · intro st0 loop3 env3
    constructor
    · intro hne
      by_contra hnn
      exact hne ((init_assertFail_iff st0 loop3 env3).mpr hnn)
    · intro hnone hfail
      exact ((init_assertFail_iff st0 loop3 env3).mp hfail) hnone

/-- C5 witness: a concrete successful initialization followed by a second
call, which aborts on the assertion. -/
theorem init_twice_asserts_witness :
    init afterSuccessState 8 ⟨true, 4, true, true, some 6⟩
      = InitOutcome.assertFail := by
  obtain ⟨h1, _⟩ :=
    init_twice_asserts ctorState 7 ⟨true, 3, true, true, some 5⟩
      afterSuccessState true rfl
  exact h1 8 ⟨true, 4, true, true, some 6⟩

/-- C6: `preBackupCallback` invokes the reply send for every request —
even when the files list is empty — except exactly when allocation of
the response object fails, in which case it logs the allocation warning
and returns `true` without any reply call. -/
theorem preBackupCallback_always_replies (st : BackupManagerState)
    (env : PreBackupEnv) (payload : Json) :
    ((preBackupCallback st env payload).reply = none ↔ env.allocOk = false) ∧
    (env.allocOk = false →
      (preBackupCallback st env payload).logs = ["Unable to allocate json object"] ∧
      (preBackupCallback st env payload).retVal = true) := by
  cases ha : env.allocOk <;> simp [preBackupCallback, ha]

/-- C6 witness: at a concrete allocation failure, the handler drops the
request silently, logs the warning, and still returns `true`. -/
theorem preBackupCallback_always_replies_witness :
    (preBackupCallback ctorState ⟨false, true, true⟩ Json.null).reply = none ∧
    (preBackupCallback ctorState ⟨false, true, true⟩ Json.null).logs
      = ["Unable to allocate json object"] ∧
    (preBackupCallback ctorState ⟨false, true, true⟩ Json.null).retVal = true := by
  have hh := preBackupCallback_always_replies ctorState ⟨false, true, true⟩ Json.null
  exact ⟨hh.1.mpr rfl, (hh.2 rfl).1, (hh.2 rfl).2⟩

/-- C7: `preBackupCallback` never reads the request payload, so two calls
under the same flag setting and the same filesystem/allocation
environment produce identical results, and in particular byte-identical
serialized replies. -/
theorem preBackupCallback_payload_independent (st : BackupManagerState)
    (env : PreBackupEnv) (p1 p2 : Json) :
    preBackupCallback st env p1 = preBackupCallback st env p2 ∧
    (preBackupCallback st env p1).reply.map Json.render
      = (preBackupCallback st env p2).reply.map Json.render :=
  ⟨rfl, rfl⟩

/-- C8: the four lifecycle observers only emit a log line: each returns
the participant state unchanged and produces no reply (their result type
carries none), so running any of them between calls leaves the
preBackup response unchanged; `postRestoreCallback` reads no instance
state at all, as its signature shows. -/
theorem observer_callbacks_frame (st : BackupManagerState)
    (status : DbBackupStatus) (env : PreBackupEnv) (p : Json) :
    (dbDumpStarted st status).1 = st ∧
    (dbDumpStopped st status).1 = st ∧
    (dbRestoreStarted st status).1 = st ∧
    (dbRestoreStopped st status).1 = st ∧
    (dbDumpStarted st status).2
      = ["Started database dump " ++ status.url ++ " err: " ++ toString status.err] ∧
    (dbDumpStopped st status).2
      = ["Stopped database dump " ++ status.url ++ " err: " ++ toString status.err] ∧
    (dbRestoreStarted st status).2
      = ["Started restore of " ++ status.url ++ " err: " ++ toString status.err] ∧
    (dbRestoreStopped st status).2
      = ["Stopped restore of " ++ status.url ++ " err: " ++ toString status.err] ∧
    preBackupCallback (dbDumpStarted st status).1 env p = preBackupCallback st env p ∧
    preBackupCallback (dbDumpStopped st status).1 env p = preBackupCallback st env p ∧
    preBackupCallback (dbRestoreStarted st status).1 env p = preBackupCallback st env p ∧
    preBackupCallback (dbRestoreStopped st status).1 env p = preBackupCallback st env p :=
  ⟨rfl, rfl, rfl, rfl, rfl, rfl, rfl, rfl, rfl, rfl, rfl, rfl⟩

/-- C9: when schema validation has passed but `LSMessageGetPayload`
returns NULL, `postRestoreCallback` returns `true` with no reply of any
kind and no log line: the request is silently dropped. -/
theorem postRestoreCallback_null_payload_drop (r : Bool) :
    (postRestoreCallback true none r).reply = none ∧
    (postRestoreCallback true none r).retVal = true ∧
    (postRestoreCallback true none r).logs = [] :=
  ⟨rfl, rfl, rfl⟩

/-- C10: both bus handlers return `true` to the transport layer on every
execution path — allocation failure, schema failure, null payload, and
reply-send failure included. -/
theorem handlers_always_return_true (st : BackupManagerState)
    (env : PreBackupEnv) (p : Json) (schemaOk : Bool) (payload : Option Json)
    (r : Bool) (payload2 : Option Json) (r2 : Bool) :
    (preBackupCallback st env p).retVal = true ∧
    (postRestoreCallback schemaOk payload r).retVal = true ∧
    (handleConfirmRestore payload2 r2).retVal = true :=
  ⟨preBackup_retVal_true st env p,
   postRestore_retVal_true schemaOk payload r,
   postRestore_retVal_true (filesSchemaOk payload2) payload2 r2⟩
